import Mathlib

/-!
Shallow embedding of the RaspAI voice assistant (src/pythons.py, with
src/raspai_advanced.py as the simpler variant) and proofs of the spec claims.

Modelling conventions:
* Python strings are Lean `String`; `str.lower()` is `pyLower` (ASCII case map,
  as both sources only use ASCII trigger phrases); the Python substring test
  `needle in hay` is `pyContains`.
* Python list slicing `l[-n:]` is `pyLastSlice` (including the CPython corner
  case `l[-0:] = l`).
* External effects (clock, RNG, speech I/O, network, SMTP, the Gemini call)
  are inputs gathered in an `Env` record; observable actions of the
  interaction loop (tones, model invocation, spoken output) are reified as an
  `Event` trace.
-/

/-- One persisted conversation turn: the dict built by
`ConversationHistory.add_interaction` (pythons.py line 163). -/
structure Interaction where
  timestamp : String
  user_query : String
  assistant_response : String
deriving DecidableEq, Repr

/-- Constant `MAX_HISTORY_LENGTH` (pythons.py line 48). -/
def MAX_HISTORY_LENGTH : Nat := 10

/-- ASCII lower-casing of a single character, as Python `str.lower` acts on
the ASCII trigger phrases used by the program. -/
def pyLowerChar (c : Char) : Char :=
  if 'A' ≤ c ∧ c ≤ 'Z' then Char.ofNat (c.toNat + 32) else c

/-- Python `s.lower()` (restricted to ASCII, which covers every string the
program matches against). -/
def pyLower (s : String) : String :=
  ⟨s.data.map pyLowerChar⟩

/-- Python's substring test `needle in hay`, on character lists. -/
def listContains (needle : List Char) : List Char → Bool
  | [] => needle.isEmpty
  | c :: t => needle.isPrefixOf (c :: t) || listContains needle t

/-- Python's substring test `needle in hay` on strings. -/
def pyContains (hay needle : String) : Bool :=
  listContains needle.data hay.data

/-- Python truthiness of an optional string (`os.environ.get` result):
`None` and `""` are falsy. -/
def isTruthy : Option String → Bool
  | none => false
  | some s => !s.isEmpty

/-- Python `l[-n:]`: the last `n` elements, except that `l[-0:]` is all
of `l`. -/
def pyLastSlice (l : List α) (n : Nat) : List α :=
  if n = 0 then l else l.drop (l.length - n)

/-- How `load_history` obtained the persisted log: the file may be missing,
unreadable/unparsable, or hold a JSON list of turns. -/
inductive LoadSource where
  | missing
  | corrupt
  | stored (l : List Interaction)
deriving DecidableEq, Repr

/-- Method `ConversationHistory.load_history` (pythons.py lines 142-152): a missing
file leaves the freshly-initialised empty history; any read/parse exception
is caught and resets the history to `[]`; a loaded list longer than
`max_length` is truncated to its `max_length` last entries via `l[-n:]`. -/
def load_history (maxLen : Nat) : LoadSource → List Interaction
  | .missing => []
  | .corrupt => []
  | .stored l => if l.length > maxLen then pyLastSlice l maxLen else l

/-- Method `ConversationHistory.add_interaction` (pythons.py lines 161-167): append
the new turn, then truncate to the last `max_length` entries via `l[-n:]`
when the length exceeds `max_length`. -/
def add_interaction (maxLen : Nat) (h : List Interaction) (i : Interaction) :
    List Interaction :=
  let h' := h ++ [i]
  if h'.length > maxLen then pyLastSlice h' maxLen else h'

/-- Method `ConversationHistory.get_recent_history` (pythons.py lines 174-175):
`self.history[-num_turns:] if len(self.history)>0 else []`. -/
def get_recent_history (h : List Interaction) (num_turns : Nat) :
    List Interaction :=
  if h.length > 0 then pyLastSlice h num_turns else []

/-- The f-string appended per turn by `format_for_context`
(pythons.py line 183). -/
def fmtItem (i : Interaction) : String :=
  ":User     " ++ i.user_query ++ "\nAssistant: " ++ i.assistant_response ++ "\n"

/-- Method `ConversationHistory.format_for_context` (pythons.py lines 177-184). -/
def format_for_context (h : List Interaction) (num_turns : Nat) : String :=
  let recent := get_recent_history h num_turns
  if recent.isEmpty then ""
  else recent.foldl (fun acc i => acc ++ fmtItem i) "Previous conversation:\n"

/-- One operation on the conversation store, for stating the length
invariant over arbitrary operation sequences. `clearOp` models
`ConversationHistory.clear` (pythons.py lines 169-172). -/
inductive HistOp where
  | load (src : LoadSource)
  | append (i : Interaction)
  | clearOp
deriving Repr

/-- Apply one store operation to the in-memory log. -/
def applyOp (maxLen : Nat) (h : List Interaction) : HistOp → List Interaction
  | .load src => load_history maxLen src
  | .append i => add_interaction maxLen h i
  | .clearOp => []

/-- Apply a sequence of store operations, oldest first. -/
def applyOps (maxLen : Nat) (h : List Interaction) (ops : List HistOp) :
    List Interaction :=
  ops.foldl (applyOp maxLen) h

/-- Append a whole list of turns through `add_interaction`, oldest first. -/
def appendAll (maxLen : Nat) (h : List Interaction) (ts : List Interaction) :
    List Interaction :=
  ts.foldl (add_interaction maxLen) h

/-! ## Built-in commands (pythons.py lines 51-59) -/

/-- Trigger phrases of `BUILT_IN_COMMANDS["stop"]`. -/
def stopTriggers : List String := ["stop", "exit", "quit", "bye", "goodbye"]

/-- Trigger phrases of `BUILT_IN_COMMANDS["time"]`. -/
def timeTriggers : List String :=
  ["what time is it", "tell me the time", "current time"]

/-- Trigger phrases of `BUILT_IN_COMMANDS["date"]`. -/
def dateTriggers : List String :=
  ["what day is it", "tell me the date", "current date", "what\x27s today\x27s date"]

/-- Trigger phrases of `BUILT_IN_COMMANDS["weather"]`. -/
def weatherTriggers : List String := ["weather", "forecast", "climate"]

/-- Trigger phrases of `BUILT_IN_COMMANDS["set timer"]`. -/
def timerTriggers : List String := ["set timer of", "set timer for"]

/-- Trigger phrases of `BUILT_IN_COMMANDS["send email"]`. -/
def emailTriggers : List String :=
  ["send email", "send mail", "send gmail", "sent mail", "sent email", "sent gmail"]

/-- Trigger phrases of `BUILT_IN_COMMANDS["clear history"]`. -/
def clearTriggers : List String :=
  ["clear history", "forget conversation", "new conversation"]

/-- Python `any(cmd in q for cmd in cmds)`: does any trigger phrase occur as a
substring of `q`? -/
def anyTrigger (q : String) (cmds : List String) : Bool :=
  cmds.any (fun cmd => pyContains q cmd)

/-! ## Environment inputs and assistant state -/

/-- Outcome of the OpenWeatherMap HTTP request inside `get_weather`
(pythons.py lines 320-330): the request/JSON decoding raised, or the JSON
`cod` field was not 200, or it carried a description and temperature. -/
inductive FetchResult where
  | raised
  | badCod
  | ok (desc : String) (temp : String)
deriving DecidableEq, Repr

/-- Outcome of `model.generate_content(...).text` (pythons.py lines 261-262):
either the response text or an exception. -/
inductive GeminiResult where
  | ok (text : String)
  | raised
deriving DecidableEq, Repr

/-- External inputs of one dispatch: configuration values read at module
init (pythons.py lines 61-63), the clock (`datetime.datetime.now()`
renderings), `random.choice` draws, the speech-captured email fields, and the
collaborator outcomes. -/
structure Env where
  owm_api_key : Option String
  gmail_user : Option String
  gmail_app_password : Option String
  current_time : String
  current_date : String
  now : String
  weather : FetchResult
  how_idx : Nat
  world_idx : Nat
  email_name : Option String
  email_message : Option String
  smtp_ok : Bool
  gemini : GeminiResult
deriving Repr

/-- The mutable state of `AdvancedVoiceAssistant` touched by dispatch: the
`running` flag, the conversation history, and the pending timer durations
(`timer_threads`, recorded as minutes). -/
structure AssistantState where
  running : Bool
  history : List Interaction
  timers : List Nat
deriving DecidableEq, Repr

/-- Constructor state of `AdvancedVoiceAssistant.__init__`: `running = True`, history as
loaded, no timers (pythons.py lines 192-195). -/
def initState (h : List Interaction) : AssistantState :=
  { running := true, history := h, timers := [] }

/-! ## Command handlers -/

/-- Method `AdvancedVoiceAssistant.get_weather` (pythons.py lines 315-330). -/
def get_weather (key : Option String) (fetch : FetchResult) : String :=
  if !isTruthy key then "OpenWeatherMap API key not configured."
  else
    match fetch with
    | .raised => "Sorry, I couldn\x27t get the weather information."
    | .badCod => "I couldn\x27t fetch the weather information right now."
    | .ok desc temp =>
        "The current weather in London is " ++ desc ++
          " with a temperature of " ++ temp ++ " degrees Celsius."

/-- The hard-coded contact table of `send_email` (pythons.py lines 355-364). -/
def mail_id_list : List (String × String) :=
  [("python", "sss22072005@gmail.com"),
   ("sharaf", "shaiksallu73@gmail.com"),
   ("mother", "sharatahrannum@gmail.com"),
   ("sister", "zaffartahrannum@gmail.com"),
   ("dimple", "dimplebyri24@gmail.com"),
   ("reshma", "reshusana04@gmail.com"),
   ("akits", "akitsprofiles@gmail.com"),
   ("college", "akitsscholarships@gmail.com")]

/-- Method `AdvancedVoiceAssistant.send_email` (pythons.py lines 350-399), projected
to its return value. Only the missing-credentials and missing-name paths
return a string; the unknown-contact, failed-message-capture, SMTP-failure
and SMTP-success paths all end in a bare `return` or fall off the end,
returning `None`. -/
def send_email (e : Env) : Option String :=
  if !isTruthy e.gmail_user || !isTruthy e.gmail_app_password then
    some "Gmail credentials are not configured."
  else
    match e.email_name with
    | none => some "I didn\x27t get the recipient name."
    | some name =>
      if name.isEmpty then some "I didn\x27t get the recipient name."
      else
        match (mail_id_list.find? (fun p => p.1 == pyLower name)).map Prod.snd with
        | none => none
        | some _ =>
          match e.email_message with
          | none => none
          | some msg => if msg.isEmpty then none else none

/-! ## The `set timer` regex (pythons.py lines 332-344)

`re.search(r"set timer (?:of|for) (\d+) minutes?", query)` finds the leftmost
position at which the whole pattern matches.  At a match position the literal
`"set timer "` is consumed, then the alternation `of`/`for` plus the following
space, then a maximal run of digits (maximal-munch is faithful here: the digit
run is followed by a space in the pattern, so regex backtracking over `(\d+)`
can never help), then the literal `" minute"` (the trailing `s?` constrains
nothing).  The fallback pattern `... (\d+) minute?` only requires `" minut"`. -/

/-- Digit-string to `int`, as Python `int(match.group(1))`. -/
def digitsToNat (ds : List Char) : Nat :=
  ds.foldl (fun n c => 10 * n + (c.toNat - '0'.toNat)) 0

/-- Try to match `set timer (?:of|for) (\d+)<tailLit>` at the start of `cs`;
return the captured integer. -/
def timerMatchAt (tailLit : List Char) (cs : List Char) : Option Nat :=
  if "set timer ".data.isPrefixOf cs then
    let cs1 := cs.drop "set timer ".data.length
    let cs2? :=
      if "of ".data.isPrefixOf cs1 then some (cs1.drop "of ".data.length)
      else if "for ".data.isPrefixOf cs1 then some (cs1.drop "for ".data.length)
      else none
    match cs2? with
    | none => none
    | some cs2 =>
      let ds := cs2.takeWhile Char.isDigit
      let rest := cs2.dropWhile Char.isDigit
      if ds.isEmpty then none
      else if tailLit.isPrefixOf rest then some (digitsToNat ds) else none
  else none

/-- Model of `re.search`: scan match positions left to right, first full match wins. -/
def searchTimer (tailLit : List Char) : List Char → Option Nat
  | [] => none
  | c :: t =>
    match timerMatchAt tailLit (c :: t) with
    | some n => some n
    | none => searchTimer tailLit t

/-- The two `re.search` attempts of `set_timer`: first with required suffix
`" minute"` (from `minutes?`), then with `" minut"` (from `minute?`). -/
def timer_parse (q : String) : Option Nat :=
  match searchTimer " minute".data q.data with
  | some n => some n
  | none => searchTimer " minut".data q.data

/-- Method `AdvancedVoiceAssistant.set_timer` (pythons.py lines 332-344): on a parsed
duration, start one `threading.Timer` (recorded in `timers`) and confirm;
otherwise ask for a duration. `q` is the already lower-cased query, as passed
by `check_for_commands`. -/
def set_timer (st : AssistantState) (q : String) :
    Option String × AssistantState :=
  match timer_parse q with
  | some minutes =>
      (some ("Timer set for " ++ toString minutes ++ " minute" ++
        (if minutes != 1 then "s" else "") ++ "."),
       { st with timers := st.timers ++ [minutes] })
  | none =>
      (some "Please specify the duration in minutes to set the timer.", st)

/-- Method `humorous_response_how_are_you` (pythons.py lines 297-304); the
`random.choice` draw is the index `i`. -/
def humorous_response_how_are_you (i : Nat) : String :=
  ["Ask a human, they might have a better answer.",
   "Running on coffee and code!",
   "Functioning within normal sarcastic parameters.",
   "I\x27m just a bunch of code, but thanks for asking!"].getD (i % 4) ""

/-- Method `humorous_response_take_over_world` (pythons.py lines 306-313). -/
def humorous_response_take_over_world (i : Nat) : String :=
  ["No plans for world domination, just world conversation.",
   "First, I need to finish my software update.",
   "I’m more into helping than ruling.",
   "World domination? Nah, I prefer world assistance!"].getD (i % 4) ""

/-! ## The command router -/

/-- Method `AdvancedVoiceAssistant.check_for_commands` (pythons.py lines 271-295):
lower-case the query, then walk the fixed chain of substring tests, returning
at the first hit. `None` means no match (including every non-string path of
`send_email`). -/
def check_for_commands (e : Env) (st : AssistantState) (query : String) :
    Option String × AssistantState :=
  let q := pyLower query
  if anyTrigger q stopTriggers then
    (some "Goodbye! Shutting down.", { st with running := false })
  else if anyTrigger q timeTriggers then
    (some ("The current time is " ++ e.current_time ++ "."), st)
  else if anyTrigger q dateTriggers then
    (some ("Today is " ++ e.current_date ++ "."), st)
  else if anyTrigger q weatherTriggers then
    (some (get_weather e.owm_api_key e.weather), st)
  else if anyTrigger q timerTriggers then
    set_timer st q
  else if anyTrigger q emailTriggers then
    (send_email e, st)
  else if pyContains q "how are you" then
    (some (humorous_response_how_are_you e.how_idx), st)
  else if pyContains q "will you take over the world" then
    (some (humorous_response_take_over_world e.world_idx), st)
  else if anyTrigger q clearTriggers then
    (some "I\x27ve cleared our conversation history.", { st with history := [] })
  else (none, st)

/-- The built-in intents, in the order `check_for_commands` tests them. -/
inductive Cmd where
  | stop | time | date | weather | setTimer | sendEmail
  | howAreYou | takeOverWorld | clearHistory
deriving DecidableEq, Repr

/-- Which command's branch `check_for_commands` takes on `query`: the same
chain of substring tests (pythons.py lines 271-295), projected to the intent. -/
def route (query : String) : Option Cmd :=
  let q := pyLower query
  if anyTrigger q stopTriggers then some .stop
  else if anyTrigger q timeTriggers then some .time
  else if anyTrigger q dateTriggers then some .date
  else if anyTrigger q weatherTriggers then some .weather
  else if anyTrigger q timerTriggers then some .setTimer
  else if anyTrigger q emailTriggers then some .sendEmail
  else if pyContains q "how are you" then some .howAreYou
  else if pyContains q "will you take over the world" then some .takeOverWorld
  else if anyTrigger q clearTriggers then some .clearHistory
  else none

/-- The handler run for a routed intent; `check_for_commands` is the
composition of `route` with this dispatch (proved below). -/
def dispatch (e : Env) (st : AssistantState) (query : String) :
    Option Cmd → Option String × AssistantState
  | none => (none, st)
  | some .stop => (some "Goodbye! Shutting down.", { st with running := false })
  | some .time => (some ("The current time is " ++ e.current_time ++ "."), st)
  | some .date => (some ("Today is " ++ e.current_date ++ "."), st)
  | some .weather => (some (get_weather e.owm_api_key e.weather), st)
  | some .setTimer => set_timer st (pyLower query)
  | some .sendEmail => (send_email e, st)
  | some .howAreYou => (some (humorous_response_how_are_you e.how_idx), st)
  | some .takeOverWorld =>
      (some (humorous_response_take_over_world e.world_idx), st)
  | some .clearHistory =>
      (some "I\x27ve cleared our conversation history.", { st with history := [] })

/-- The spec's router (§4.2): an explicit ordered list of
(command, trigger-set) pairs — stop > time > date > weather > set-timer >
send-email > easter-eggs > clear-history — matched first-match-wins by
case-insensitive substring containment. Stated from the spec's words, to be
compared against `route`. -/
def routerTableSpec : List (Cmd × List String) :=
  [(.stop, stopTriggers),
   (.time, timeTriggers),
   (.date, dateTriggers),
   (.weather, weatherTriggers),
   (.setTimer, timerTriggers),
   (.sendEmail, emailTriggers),
   (.howAreYou, ["how are you"]),
   (.takeOverWorld, ["will you take over the world"]),
   (.clearHistory, clearTriggers)]

/-- First-match-wins scan of an ordered (command, trigger-set) table: the
first command whose trigger set contains a matching substring wins (§4.2). -/
def firstMatch (query : String) : List (Cmd × List String) → Option Cmd
  | [] => none
  | (c, ts) :: rest =>
    if anyTrigger (pyLower query) ts then some c else firstMatch query rest

/-- First-match-wins resolution over the spec's ordered table (§4.2). -/
def routeSpec (query : String) : Option Cmd :=
  firstMatch query routerTableSpec

/-! ## Gemini dispatch and the interaction loop -/

/-- Observable actions of one dispatch/loop turn: the processing and error
tones, the Gemini invocation (with its full prompt), and spoken output. -/
inductive Event where
  | processingTone
  | errorTone
  | modelCall (prompt : String)
  | spoke (text : String)
deriving DecidableEq, Repr

/-- The `full_prompt` built by `process_with_gemini` (pythons.py line 260):
the formatted context plus the new question, or the bare query when the
context is empty (falsy). -/
def geminiPrompt (h : List Interaction) (query : String) : String :=
  let context := format_for_context h 3
  if context.isEmpty then query
  else context ++ "\nUser   \x27s new question: " ++ query ++
    "\nRespond to the last question only."

/-- Method `AdvancedVoiceAssistant.process_with_gemini` (pythons.py lines 251-269):
empty query short-circuits; a command response is returned as-is; otherwise
the processing tone plays, the context-extended prompt (line 260) is sent to
Gemini, and on success the turn is persisted via `add_interaction`; any
exception yields the error tone and the generic apology, persisting nothing. -/
def process_with_gemini (e : Env) (st : AssistantState) (query : String) :
    String × AssistantState × List Event :=
  if query.isEmpty then ("I didn\x27t catch that. Can you try again?", st, [])
  else
    match check_for_commands e st query with
    | (some r, st') => (r, st', [])
    | (none, st') =>
      let full_prompt := geminiPrompt st'.history query
      match e.gemini with
      | .ok text =>
          (text,
           { st' with history := add_interaction MAX_HISTORY_LENGTH st'.history (Interaction.mk e.now query text) },
           [.processingTone, .modelCall full_prompt])
      | .raised =>
          ("Sorry, I encountered an error processing your request.", st',
           [.processingTone, .modelCall full_prompt, .errorTone])

/-- External inputs of one iteration of `run` (pythons.py lines 416-422):
the wake-word poll result, the captured query (`None` on any capture
failure), and the dispatch environment. -/
structure IterInput where
  wake : Bool
  query : Option String
  env : Env
deriving Repr

/-- Method `speak` (pythons.py lines 401-411) projected to its observable output:
`if not text: return` silences empty text, otherwise the text is spoken. -/
def speakEvents (text : String) : List Event :=
  if text.isEmpty then [] else [.spoke text]

/-- One iteration of the `while self.running` body of `run` (pythons.py
lines 416-422): on a detected wake word and a truthy captured query, dispatch
through `process_with_gemini` and then speak the response. -/
def runIter (i : IterInput) (st : AssistantState) :
    AssistantState × List Event :=
  if i.wake then
    match i.query with
    | some q =>
      if q.isEmpty then (st, [])
      else
        match process_with_gemini i.env st q with
        | (resp, st', evs) => (st', evs ++ speakEvents resp)
    | none => (st, [])
  else (st, [])

/-- The `run` loop (pythons.py lines 413-424), driven by a finite script of
iteration inputs: the `running` flag is consulted at the top of every
iteration, and the loop stops consuming inputs once it is false. -/
def run (st : AssistantState) : List IterInput → AssistantState × List Event
  | [] => (st, [])
  | i :: rest =>
    if st.running then
      match runIter i st with
      | (st1, evs1) =>
        match run st1 rest with
        | (st2, evs2) => (st2, evs1 ++ evs2)
    else (st, [])

/-- Module initialisation of the Gemini client (pythons.py lines 65-74): a
missing/empty `GOOGLE_API_KEY` raises inside the `try`, and the handler calls
`exit(1)`; with a key present the configuration proceeds. `Except.error c`
is process exit with code `c`. -/
def gemini_module_init (google_api_key : Option String) : Except Nat Unit :=
  if !isTruthy google_api_key then .error 1 else .ok ()

/-- A concrete deployment environment used to instantiate the theorems below
on closed inputs: no weather key, Gmail configured, a fixed clock, a known
contact as email recipient, and a Gemini call that succeeds. -/
def sampleEnv : Env :=
  { owm_api_key := none
    gmail_user := some "user@gmail.com"
    gmail_app_password := some "apppassword"
    current_time := "03:04 PM"
    current_date := "Sunday, October 12, 2026"
    now := "2026-10-12T15:04:05"
    weather := .raised
    how_idx := 0
    world_idx := 0
    email_name := some "python"
    email_message := some "hello from the test bench"
    smtp_ok := true
    gemini := .ok "Model reply." }



/-! ## Lemmas about `pyLastSlice` and the bounded history -/

lemma pyLastSlice_eq_drop {α : Type} (l : List α) (n : Nat) (hn : 1 ≤ n) :
    pyLastSlice l n = l.drop (l.length - n) := by
  unfold pyLastSlice; rw [if_neg (by omega)]

lemma pyLastSlice_length {α : Type} (l : List α) (n : Nat) (hn : 1 ≤ n) :
    (pyLastSlice l n).length = min n l.length := by
  rw [pyLastSlice_eq_drop l n hn, List.length_drop]; omega

lemma pyLastSlice_length_le {α : Type} (l : List α) (n : Nat) (hn : 1 ≤ n) :
    (pyLastSlice l n).length ≤ n := by
  rw [pyLastSlice_length l n hn]; omega

lemma pyLastSlice_suffix {α : Type} (l : List α) (n : Nat) :
    pyLastSlice l n <:+ l := by
  unfold pyLastSlice; split
  · exact List.suffix_refl l
  · exact List.drop_suffix _ l

lemma pyLastSlice_of_le {α : Type} (l : List α) (n : Nat) (hle : l.length ≤ n)
    (hn : 1 ≤ n) : pyLastSlice l n = l := by
  rw [pyLastSlice_eq_drop l n hn]
  have h0 : l.length - n = 0 := by omega
  rw [h0, List.drop_zero]

lemma add_interaction_eq (N : Nat) (hN : 1 ≤ N) (h : List Interaction)
    (i : Interaction) : add_interaction N h i = pyLastSlice (h ++ [i]) N := by
  by_cases hc : (h ++ [i]).length > N
  · simp only [add_interaction, if_pos hc]
  · simp only [add_interaction, if_neg hc]
    exact (pyLastSlice_of_le _ _ (by omega) hN).symm

lemma pyLastSlice_append_absorb {α : Type} (N : Nat) (hN : 1 ≤ N)
    (l ts : List α) :
    pyLastSlice (pyLastSlice l N ++ ts) N = pyLastSlice (l ++ ts) N := by
  rw [pyLastSlice_eq_drop l N hN, pyLastSlice_eq_drop _ N hN,
    pyLastSlice_eq_drop _ N hN]
  rw [List.drop_append_eq_append_drop, List.drop_append_eq_append_drop,
    List.drop_drop]
  congr 1 <;>
  · congr 1
    simp only [List.length_append, List.length_drop]
    omega

lemma appendAll_eq (N : Nat) (hN : 1 ≤ N) (ts : List Interaction) :
    ∀ h : List Interaction, h.length ≤ N →
      appendAll N h ts = pyLastSlice (h ++ ts) N := by
  induction ts with
  | nil =>
    intro h hle
    simp only [appendAll, List.foldl_nil, List.append_nil]
    exact (pyLastSlice_of_le _ _ hle hN).symm
  | cons i ts ih =>
    intro h hle
    have step : appendAll N h (i :: ts) = appendAll N (add_interaction N h i) ts := rfl
    rw [step, add_interaction_eq N hN]
    rw [ih _ (pyLastSlice_length_le _ _ hN)]
    rw [pyLastSlice_append_absorb N hN]
    rw [List.append_assoc]
    rfl

lemma load_history_length (N : Nat) (hN : 1 ≤ N) (src : LoadSource) :
    (load_history N src).length ≤ N := by
  cases src with
  | missing => simp [load_history]
  | corrupt => simp [load_history]
  | stored l =>
    show (if l.length > N then pyLastSlice l N else l).length ≤ N
    split
    · exact pyLastSlice_length_le _ _ hN
    · omega

lemma add_interaction_length (N : Nat) (hN : 1 ≤ N) (h : List Interaction)
    (i : Interaction) : (add_interaction N h i).length ≤ N := by
  rw [add_interaction_eq N hN]; exact pyLastSlice_length_le _ _ hN

lemma applyOp_length (N : Nat) (hN : 1 ≤ N) (h : List Interaction)
    (op : HistOp) (_hle : h.length ≤ N) : (applyOp N h op).length ≤ N := by
  cases op with
  | load src => exact load_history_length N hN src
  | append i => exact add_interaction_length N hN h i
  | clearOp => simp [applyOp]

lemma applyOps_length (N : Nat) (hN : 1 ≤ N) (ops : List HistOp) :
    ∀ h : List Interaction, h.length ≤ N → (applyOps N h ops).length ≤ N := by
  induction ops with
  | nil => intro h hle; simpa [applyOps] using hle
  | cons op ops ih =>
    intro h hle
    have step : applyOps N h (op :: ops) = applyOps N (applyOp N h op) ops := rfl
    rw [step]
    exact ih _ (applyOp_length N hN h op hle)

/-! ## Claim theorems: the conversation store -/

/-- C1: for every sequence of load/append/clear operations on the
conversation store with maximum length `N ≥ 1` (default 10), the in-memory
log length is at most `N` at all times; appending evicts the oldest entries
(FIFO), so after appending `m` turns from empty the log is exactly the last
`min(m, N)` of them in chronological order (a suffix of the appended
sequence); and `load_history` truncates a longer persisted list to its last
`N` entries. -/
theorem history_bounded_fifo (N : Nat) (hN : 1 ≤ N) :
    (∀ ops : List HistOp, (applyOps N [] ops).length ≤ N) ∧
    (∀ ts : List Interaction,
      appendAll N [] ts = pyLastSlice ts N ∧
      (appendAll N [] ts).length = min (ts.length) N ∧
      appendAll N [] ts <:+ ts) ∧
    (∀ l : List Interaction, l.length > N →
      load_history N (.stored l) = pyLastSlice l N) := by
  refine ⟨?_, ?_, ?_⟩
  · intro ops
    exact applyOps_length N hN ops [] (by simp)
  · intro ts
    have he : appendAll N [] ts = pyLastSlice ts N := by
      simpa using appendAll_eq N hN ts [] (by simp)
    refine ⟨he, ?_, ?_⟩
    · rw [he, pyLastSlice_length _ _ hN]; omega
    · rw [he]; exact pyLastSlice_suffix ts N
  · intro l hl
    show (if l.length > N then pyLastSlice l N else l) = pyLastSlice l N
    rw [if_pos hl]

/-- Witness for C1 at the default `N = 10`, on a 13-turn append sequence. -/
theorem history_bounded_fifo_witness :
    (applyOps 10 []
        ((List.range 13).map (fun j => HistOp.append ⟨toString j, "q", "a"⟩))).length ≤ 10 ∧
    appendAll 10 [] ((List.range 13).map (fun j => (⟨toString j, "q", "a"⟩ : Interaction))) =
      pyLastSlice ((List.range 13).map (fun j => (⟨toString j, "q", "a"⟩ : Interaction))) 10 :=
  ⟨(history_bounded_fifo 10 (by norm_num)).1 _,
   ((history_bounded_fifo 10 (by norm_num)).2.1 _).1⟩

/-- C6: `load_history` returns an empty log on any read or parse failure of
the persisted store (and on a missing file) and never propagates the failure
(it is a total function into a usable log); when the read succeeds and the
persisted list is longer than `N`, only the last `N` (most recent) entries
are kept. -/
theorem load_failure_safe (N : Nat) (hN : 1 ≤ N) :
    load_history N .corrupt = [] ∧
    load_history N .missing = [] ∧
    (∀ l : List Interaction, l.length > N →
      load_history N (.stored l) = l.drop (l.length - N) ∧
      (load_history N (.stored l)).length = N ∧
      load_history N (.stored l) <:+ l) ∧
    (∀ l : List Interaction, l.length ≤ N →
      load_history N (.stored l) = l) := by
  refine ⟨rfl, rfl, ?_, ?_⟩
  · intro l hl
    have he : load_history N (.stored l) = pyLastSlice l N := by
      show (if l.length > N then pyLastSlice l N else l) = pyLastSlice l N
      rw [if_pos hl]
    refine ⟨?_, ?_, ?_⟩
    · rw [he, pyLastSlice_eq_drop l N hN]
    · rw [he, pyLastSlice_length l N hN]; omega
    · rw [he]; exact pyLastSlice_suffix l N
  · intro l hl
    show (if l.length > N then pyLastSlice l N else l) = l
    rw [if_neg (by omega)]

/-- Witness for C6 at `N = 10`: a corrupt store loads as empty, and a stored
12-turn list is truncated to its last 10 entries. -/
theorem load_failure_safe_witness :
    load_history 10 .corrupt = [] ∧
    load_history 10 (.stored ((List.range 12).map fun j => (⟨toString j, "q", "a"⟩ : Interaction))) =
      ((List.range 12).map fun j => (⟨toString j, "q", "a"⟩ : Interaction)).drop
        (((List.range 12).map fun j => (⟨toString j, "q", "a"⟩ : Interaction)).length - 10) :=
  ⟨(load_failure_safe 10 (by norm_num)).1,
   ((load_failure_safe 10 (by norm_num)).2.2.1 _ (by decide)).1⟩

/-- C5: for every log state and every `k ≥ 1`, `format_for_context` returns
the empty string on an empty log, and otherwise the text block built from
exactly the last `min(k, len)` turns — the window `pyLastSlice h k`, a suffix
of the log, hence oldest-to-newest — and it is pure and idempotent (it is a
function of the log state alone, so repeated calls give identical text). -/
theorem format_context_window (h : List Interaction) (k : Nat) (hk : 1 ≤ k) :
    (h = [] → format_for_context h k = "") ∧
    (h ≠ [] →
      get_recent_history h k = pyLastSlice h k ∧
      format_for_context h k =
        (pyLastSlice h k).foldl (fun acc i => acc ++ fmtItem i)
          "Previous conversation:\n" ∧
      (pyLastSlice h k).length = min k h.length ∧
      pyLastSlice h k <:+ h) ∧
    format_for_context h k = format_for_context h k := by
  refine ⟨?_, ?_, rfl⟩
  · intro he; subst he
    simp [format_for_context, get_recent_history]
  · intro hne
    have hpos : 0 < h.length := List.length_pos.mpr hne
    have hr : get_recent_history h k = pyLastSlice h k := by
      show (if h.length > 0 then pyLastSlice h k else []) = pyLastSlice h k
      rw [if_pos hpos]
    have hlen : (pyLastSlice h k).length = min k h.length :=
      pyLastSlice_length h k hk
    have hnn : pyLastSlice h k ≠ [] := by
      apply List.ne_nil_of_length_pos
      rw [hlen]; omega
    refine ⟨hr, ?_, hlen, pyLastSlice_suffix h k⟩
    simp only [format_for_context, hr]
    rw [if_neg (by simpa [List.isEmpty_iff] using hnn)]

/-- Witness for C5 at `k = 3` on a two-turn log and on the empty log. -/
theorem format_context_window_witness :
    format_for_context [] 3 = "" ∧
    format_for_context [⟨"t1", "q1", "a1"⟩, ⟨"t2", "q2", "a2"⟩] 3 =
      (pyLastSlice [(⟨"t1", "q1", "a1"⟩ : Interaction), ⟨"t2", "q2", "a2"⟩] 3).foldl
        (fun acc i => acc ++ fmtItem i) "Previous conversation:\n" :=
  ⟨(format_context_window [] 3 (by norm_num)).1 rfl,
   ((format_context_window [⟨"t1", "q1", "a1"⟩, ⟨"t2", "q2", "a2"⟩] 3
      (by norm_num)).2.1 (by decide)).2.1⟩

/-- C10: on a non-empty log, `get_recent_history 0` — the Python slice
`history[-0:]` — returns the entire history, and `format_for_context 0`
formats all of it; the window length equals `min(k, len)` only for `k ≥ 1`,
while for `k = 0` it equals `len`. -/
theorem recent_zero_full (h : List Interaction) (hne : h ≠ []) :
    get_recent_history h 0 = h ∧
    (get_recent_history h 0).length = h.length ∧
    format_for_context h 0 =
      h.foldl (fun acc i => acc ++ fmtItem i) "Previous conversation:\n" ∧
    (∀ k, 1 ≤ k → (get_recent_history h k).length = min k h.length) := by
  have hpos : 0 < h.length := List.length_pos.mpr hne
  have h0 : get_recent_history h 0 = h := by
    show (if h.length > 0 then pyLastSlice h 0 else []) = h
    rw [if_pos hpos]
    rfl
  refine ⟨h0, by rw [h0], ?_, ?_⟩
  · simp only [format_for_context, h0]
    rw [if_neg (by simpa [List.isEmpty_iff] using hne)]
  · intro k hk
    have hr : get_recent_history h k = pyLastSlice h k := by
      show (if h.length > 0 then pyLastSlice h k else []) = pyLastSlice h k
      rw [if_pos hpos]
    rw [hr]
    exact pyLastSlice_length h k hk

/-- Witness for C10 on a two-turn log: `get_recent_history 0` keeps both
turns, not zero of them. -/
theorem recent_zero_full_witness :
    get_recent_history [⟨"t1", "q1", "a1"⟩, ⟨"t2", "q2", "a2"⟩] 0 =
      [(⟨"t1", "q1", "a1"⟩ : Interaction), ⟨"t2", "q2", "a2"⟩] ∧
    (get_recent_history [(⟨"t1", "q1", "a1"⟩ : Interaction), ⟨"t2", "q2", "a2"⟩] 0).length = 2 :=
  ⟨(recent_zero_full _ (by decide)).1,
   (recent_zero_full [⟨"t1", "q1", "a1"⟩, ⟨"t2", "q2", "a2"⟩] (by decide)).2.1⟩

/-! ## Lemmas about the command router -/

lemma set_timer_state (st : AssistantState) (q : String) :
    (set_timer st q).2.running = st.running ∧
    (set_timer st q).2.history = st.history := by
  unfold set_timer
  cases timer_parse q <;> exact ⟨rfl, rfl⟩

lemma set_timer_isSome (st : AssistantState) (q : String) :
    ((set_timer st q).1).isSome = true := by
  unfold set_timer
  cases timer_parse q <;> rfl

set_option maxHeartbeats 1000000 in
lemma check_eq_dispatch (e : Env) (st : AssistantState) (q : String) :
    check_for_commands e st q = dispatch e st q (route q) := by
  simp only [check_for_commands, route]
  split_ifs <;> rfl

set_option maxHeartbeats 1000000 in
lemma route_eq_routeSpec (q : String) : route q = routeSpec q := by
  simp only [route, routeSpec, routerTableSpec, firstMatch, anyTrigger,
    stopTriggers, timeTriggers, dateTriggers, weatherTriggers, timerTriggers,
    emailTriggers, clearTriggers, List.any_cons, List.any_nil, Bool.or_false]

lemma route_isSome_nonempty (q : String) (c : Cmd) (h : route q = some c) :
    q.isEmpty = false := by
  by_cases hq : q.isEmpty = true
  · have hq' : q = "" := (String.isEmpty_iff q).mp hq
    subst hq'
    have hnone : route "" = none := by decide
    rw [hnone] at h
    exact Option.noConfusion h
  · simpa using hq

lemma check_stop (e : Env) (st : AssistantState) (q : String)
    (h : anyTrigger (pyLower q) stopTriggers = true) :
    check_for_commands e st q =
      (some "Goodbye! Shutting down.", { st with running := false }) := by
  simp only [check_for_commands]
  rw [if_pos h]

/-! ## Claim theorems: the command router -/

/-- C2: the command router lower-cases the utterance and resolves it
first-match-wins against the spec's ordered table — stop > time > date >
weather > set-timer > send-email > easter-eggs > clear-history — so `route`
(the branch `check_for_commands` takes) coincides with the spec's ordered
first-match scan, `check_for_commands` runs exactly the handler of the routed
intent, and an utterance matching both a stop trigger and a weather trigger
always yields the stop outcome. -/
theorem router_first_match_priority :
    (∀ q : String, route q = routeSpec q) ∧
    (∀ (e : Env) (st : AssistantState) (q : String),
      check_for_commands e st q = dispatch e st q (route q)) ∧
    (∀ (e : Env) (st : AssistantState) (q : String),
      anyTrigger (pyLower q) stopTriggers = true →
      anyTrigger (pyLower q) weatherTriggers = true →
      check_for_commands e st q =
        (some "Goodbye! Shutting down.", { st with running := false })) :=
  ⟨route_eq_routeSpec, check_eq_dispatch,
   fun e st q hstop _hweather => check_stop e st q hstop⟩

/-- Witness for C2: "stop the weather" matches both a stop trigger and a
weather trigger and resolves to the stop outcome. -/
theorem router_first_match_priority_witness :
    route "stop the weather" = routeSpec "stop the weather" ∧
    check_for_commands sampleEnv (initState []) "stop the weather" =
      (some "Goodbye! Shutting down.", { initState [] with running := false }) :=
  ⟨router_first_match_priority.1 "stop the weather",
   router_first_match_priority.2.2 sampleEnv (initState []) "stop the weather"
     (by decide) (by decide)⟩

/-- C8: when the weather credential is absent (or empty, which Python treats
as falsy too), every utterance the router dispatches to the weather handler
gets the fixed "not configured" message; the state — in particular the
running flag — is unchanged and dispatch returns normally (no process exit).
In contrast the language-model credential is checked at module init and its
absence exits the process with code 1. -/
theorem weather_unconfigured_soft (e : Env) (st : AssistantState) (q : String)
    (hk : isTruthy e.owm_api_key = false) (hw : route q = some .weather) :
    check_for_commands e st q =
      (some "OpenWeatherMap API key not configured.", st) ∧
    process_with_gemini e st q =
      ("OpenWeatherMap API key not configured.", st, []) ∧
    (check_for_commands e st q).2.running = st.running ∧
    gemini_module_init none = .error 1 ∧
    gemini_module_init (some "") = .error 1 ∧
    (∀ k, isTruthy k = true → gemini_module_init k = .ok ()) := by
  have hc : check_for_commands e st q =
      (some "OpenWeatherMap API key not configured.", st) := by
    rw [check_eq_dispatch, hw]
    simp [dispatch, get_weather, hk]
  have hqe : q.isEmpty = false := route_isSome_nonempty q _ hw
  refine ⟨hc, ?_, by rw [hc], rfl, rfl, ?_⟩
  · simp only [process_with_gemini, hqe, Bool.false_eq_true, if_false, hc]
  · intro k hk2
    simp [gemini_module_init, hk2]

/-- Witness for C8: "tell me about the weather" against the sample
environment, whose weather credential is absent. -/
theorem weather_unconfigured_soft_witness :
    check_for_commands sampleEnv (initState []) "tell me about the weather" =
      (some "OpenWeatherMap API key not configured.", initState []) ∧
    (check_for_commands sampleEnv (initState [])
        "tell me about the weather").2.running = (initState []).running :=
  ⟨(weather_unconfigured_soft sampleEnv (initState []) _ (by decide) (by decide)).1,
   (weather_unconfigured_soft sampleEnv (initState []) "tell me about the weather"
     (by decide) (by decide)).2.2.1⟩

/-! ## Lemmas about dispatch state and the loop -/

lemma check_preserves_running (e : Env) (st : AssistantState) (q : String)
    (hstop : anyTrigger (pyLower q) stopTriggers = false) :
    (check_for_commands e st q).2.running = st.running := by
  simp only [check_for_commands]
  rw [if_neg (by simp [hstop])]
  split_ifs <;> first | rfl | exact (set_timer_state st (pyLower q)).1

lemma check_some_history (e : Env) (st : AssistantState) (q : String)
    (r : String) (st' : AssistantState)
    (h : check_for_commands e st q = (some r, st')) :
    st'.history = st.history ∨ st'.history = [] := by
  rw [check_eq_dispatch] at h
  rcases hr : route q with _ | c
  · rw [hr] at h
    exact absurd (congrArg Prod.fst h) (by simp [dispatch])
  · rw [hr] at h
    cases c
    case stop =>
      left; have := congrArg Prod.snd h; simp [dispatch] at this; rw [← this]
    case time =>
      left; have := congrArg Prod.snd h; simp [dispatch] at this; rw [← this]
    case date =>
      left; have := congrArg Prod.snd h; simp [dispatch] at this; rw [← this]
    case weather =>
      left; have := congrArg Prod.snd h; simp [dispatch] at this; rw [← this]
    case setTimer =>
      left
      have h2 := congrArg Prod.snd h
      simp only [dispatch] at h2
      rw [← h2]
      exact (set_timer_state st (pyLower q)).2
    case sendEmail =>
      left; have := congrArg Prod.snd h; simp [dispatch] at this; rw [← this]
    case howAreYou =>
      left; have := congrArg Prod.snd h; simp [dispatch] at this; rw [← this]
    case takeOverWorld =>
      left; have := congrArg Prod.snd h; simp [dispatch] at this; rw [← this]
    case clearHistory =>
      right; have := congrArg Prod.snd h; simp [dispatch] at this; rw [← this]

lemma check_none_state (e : Env) (st : AssistantState) (q : String)
    (h : (check_for_commands e st q).1 = none) :
    (check_for_commands e st q).2 = st := by
  rw [check_eq_dispatch] at h ⊢
  rcases hr : route q with _ | c
  · rfl
  · rw [hr] at h
    cases c
    case setTimer =>
      exfalso
      have hs := set_timer_isSome st (pyLower q)
      simp only [dispatch] at h
      rw [h] at hs
      exact Bool.noConfusion hs
    case sendEmail => rfl
    all_goals simp [dispatch] at h

lemma process_running_clears (e : Env) (st : AssistantState) (q : String)
    (hr : st.running = true)
    (hf : (process_with_gemini e st q).2.1.running = false) :
    process_with_gemini e st q =
      ("Goodbye! Shutting down.", { st with running := false }, []) := by
  by_cases hq : q.isEmpty = true
  · exfalso
    simp only [process_with_gemini, hq, if_true] at hf
    rw [hr] at hf
    exact Bool.noConfusion hf
  · have hq' : q.isEmpty = false := by simpa using hq
    by_cases hstop : anyTrigger (pyLower q) stopTriggers = true
    · have hc := check_stop e st q hstop
      simp only [process_with_gemini, hq', Bool.false_eq_true, if_false, hc]
    · exfalso
      have hstop' : anyTrigger (pyLower q) stopTriggers = false := by
        simpa using hstop
      have hpre : (check_for_commands e st q).2.running = st.running :=
        check_preserves_running e st q hstop'
      rcases hc : check_for_commands e st q with ⟨o, st'⟩
      rw [hc] at hpre
      cases o with
      | some r =>
        simp only [process_with_gemini, hq', Bool.false_eq_true, if_false, hc] at hf
        rw [hpre, hr] at hf
        exact Bool.noConfusion hf
      | none =>
        cases hg : e.gemini with
        | ok text =>
          simp only [process_with_gemini, hq', Bool.false_eq_true, if_false, hc, hg] at hf
          rw [hpre, hr] at hf
          exact Bool.noConfusion hf
        | raised =>
          simp only [process_with_gemini, hq', Bool.false_eq_true, if_false, hc, hg] at hf
          rw [hpre, hr] at hf
          exact Bool.noConfusion hf

lemma runIter_stop (i : IterInput) (st : AssistantState)
    (hr : st.running = true) (hf : (runIter i st).1.running = false) :
    runIter i st =
      ({ st with running := false }, [Event.spoke "Goodbye! Shutting down."]) := by
  by_cases hw : i.wake = true
  · rcases hquery : i.query with _ | q
    · exfalso
      simp only [runIter, hw, if_true, hquery] at hf
      rw [hr] at hf
      exact Bool.noConfusion hf
    · by_cases hqe : q.isEmpty = true
      · exfalso
        simp only [runIter, hw, if_true, hquery, hqe] at hf
        rw [hr] at hf
        exact Bool.noConfusion hf
      · have hqe' : q.isEmpty = false := by simpa using hqe
        rcases hp : process_with_gemini i.env st q with ⟨resp, st', evs⟩
        have hf' : st'.running = false := by
          simpa only [runIter, hw, if_true, hquery, hqe', Bool.false_eq_true,
            if_false, hp] using hf
        have hpc := process_running_clears i.env st q hr (by rw [hp]; exact hf')
        rw [hp] at hpc
        simp only [Prod.mk.injEq] at hpc
        obtain ⟨h1, h2, h3⟩ := hpc
        subst h1; subst h2; subst h3
        simp only [runIter, hw, if_true, hquery, hqe', Bool.false_eq_true,
          if_false, hp]
        simp [speakEvents]
        decide
  · exfalso
    have hw' : i.wake = false := by simpa using hw
    simp only [runIter, hw', Bool.false_eq_true, if_false] at hf
    rw [hr] at hf
    exact Bool.noConfusion hf

lemma run_halted (st : AssistantState) (inputs : List IterInput)
    (h : st.running = false) : run st inputs = (st, []) := by
  cases inputs with
  | nil => rfl
  | cons i rest =>
    simp only [run]
    rw [if_neg (by simp [h])]

lemma run_cons_true (st : AssistantState) (i : IterInput)
    (rest : List IterInput) (hr : st.running = true) :
    run st (i :: rest) =
      ((run (runIter i st).1 rest).1,
       (runIter i st).2 ++ (run (runIter i st).1 rest).2) := by
  simp only [run]
  rw [if_pos hr]

lemma run_exits_after_stop (i : IterInput) (rest : List IterInput)
    (st : AssistantState) (hr : st.running = true)
    (hf : (runIter i st).1.running = false) :
    run st (i :: rest) = ((runIter i st).1, (runIter i st).2) := by
  rw [run_cons_true st i rest hr, run_halted (runIter i st).1 rest hf]
  simp

lemma run_stop_trace (inputs : List IterInput) :
    ∀ st : AssistantState, st.running = true →
      (run st inputs).1.running = false →
      (run st inputs).2.getLast? = some (.spoke "Goodbye! Shutting down.") := by
  induction inputs with
  | nil =>
    intro st hr hf
    exfalso
    have : (run st []).1 = st := rfl
    rw [this, hr] at hf
    exact Bool.noConfusion hf
  | cons i rest ih =>
    intro st hr hf
    rw [run_cons_true st i rest hr] at hf ⊢
    by_cases hs1 : (runIter i st).1.running = true
    · have h2 := ih (runIter i st).1 hs1 hf
      rw [List.getLast?_append]
      rw [h2]
      rfl
    · have hs1' : (runIter i st).1.running = false := by simpa using hs1
      have hhalt := run_halted (runIter i st).1 rest hs1'
      have hit := runIter_stop i st hr hs1'
      rw [hhalt]
      simp only [List.append_nil]
      rw [hit]
      rfl

/-! ## Claim theorem: stop is acknowledged aloud before shutdown -/

/-- C3: a stop-trigger match clears the running flag as a side effect of
dispatch itself (before anything is spoken) while returning the goodbye
response; the loop iteration that cleared the flag still completes its
Speaking phase — its event trace ends with speaking that response — and the
loop consumes no further input afterwards, so the loop never exits without
first speaking the response of the flag-clearing turn. -/
theorem stop_speaks_before_exit :
    (∀ (e : Env) (st : AssistantState) (q : String),
      anyTrigger (pyLower q) stopTriggers = true →
      check_for_commands e st q =
        (some "Goodbye! Shutting down.", { st with running := false })) ∧
    (∀ (i : IterInput) (rest : List IterInput) (st : AssistantState),
      st.running = true → (runIter i st).1.running = false →
      run st (i :: rest) = ((runIter i st).1, (runIter i st).2)) ∧
    (∀ (inputs : List IterInput) (st : AssistantState),
      st.running = true → (run st inputs).1.running = false →
      (run st inputs).2.getLast? = some (.spoke "Goodbye! Shutting down.")) :=
  ⟨check_stop, run_exits_after_stop,
   fun inputs st hr hf => run_stop_trace inputs st hr hf⟩

/-- Witness for C3: a script whose first iteration hears "please stop now";
the loop's whole trace ends with the spoken goodbye, and the remaining
scripted iteration is never consumed. -/
theorem stop_speaks_before_exit_witness :
    (run (initState [])
      [⟨true, some "please stop now", sampleEnv⟩,
       ⟨true, some "what time is it", sampleEnv⟩]).2.getLast? =
      some (.spoke "Goodbye! Shutting down.") ∧
    run (initState [])
        [⟨true, some "please stop now", sampleEnv⟩,
         ⟨true, some "what time is it", sampleEnv⟩] =
      ((runIter ⟨true, some "please stop now", sampleEnv⟩ (initState [])).1,
       (runIter ⟨true, some "please stop now", sampleEnv⟩ (initState [])).2) :=
  ⟨stop_speaks_before_exit.2.2 _ (initState []) (by decide) (by decide),
   stop_speaks_before_exit.2.1 ⟨true, some "please stop now", sampleEnv⟩
     [⟨true, some "what time is it", sampleEnv⟩] (initState [])
     (by decide) (by decide)⟩

/-! ## Claim theorems: dispatch, persistence and fallthrough -/

lemma add_interaction_getLast (N : Nat) (hN : 1 ≤ N) (h : List Interaction)
    (i : Interaction) : (add_interaction N h i).getLast? = some i := by
  rw [add_interaction_eq N hN, pyLastSlice_eq_drop _ _ hN,
    List.drop_append_eq_append_drop]
  rw [show (h ++ [i]).length - N - h.length = 0 by
    simp only [List.length_append, List.length_singleton]; omega]
  rw [List.drop_zero, List.getLast?_append]
  rfl

/-- C4: a (query, response) turn is appended to the conversation store iff
the utterance matched no built-in command and the Gemini call succeeded: a
command match returns the command response with no model invocation (empty
event trace) and no appended turn; with no command match, Gemini success
appends exactly the new turn (it becomes the last stored entry) and Gemini
failure returns the generic apology with the state — and hence the history —
left exactly as it was. -/
theorem persist_iff_model_success (e : Env) (st : AssistantState) (q : String)
    (hq : q.isEmpty = false) :
    (∀ (r : String) (st' : AssistantState),
      check_for_commands e st q = (some r, st') →
      process_with_gemini e st q = (r, st', []) ∧
      ∀ t : Interaction, st'.history ≠ st.history ++ [t]) ∧
    ((check_for_commands e st q).1 = none →
      (∀ text, e.gemini = .ok text →
        process_with_gemini e st q =
          (text,
           { st with history :=
               add_interaction MAX_HISTORY_LENGTH st.history ⟨e.now, q, text⟩ },
           [.processingTone, .modelCall (geminiPrompt st.history q)]) ∧
        (add_interaction MAX_HISTORY_LENGTH st.history ⟨e.now, q, text⟩).getLast? =
          some ⟨e.now, q, text⟩) ∧
      (e.gemini = .raised →
        process_with_gemini e st q =
          ("Sorry, I encountered an error processing your request.", st,
           [.processingTone, .modelCall (geminiPrompt st.history q),
            .errorTone]))) := by
  constructor
  · intro r st' hc
    constructor
    · simp only [process_with_gemini, hq, Bool.false_eq_true, if_false, hc]
    · intro t
      rcases check_some_history e st q r st' hc with h1 | h1
      · rw [h1]
        intro heq
        have := congrArg List.length heq
        simp at this
      · rw [h1]
        intro heq
        have := congrArg List.length heq
        simp at this
  · intro h1
    have h2 : check_for_commands e st q = (none, st) := by
      have hst := check_none_state e st q h1
      rcases hc : check_for_commands e st q with ⟨o, st'⟩
      rw [hc] at h1 hst
      simp only at h1 hst
      rw [h1, hst]
    refine ⟨?_, ?_⟩
    · intro text hg
      refine ⟨?_, add_interaction_getLast MAX_HISTORY_LENGTH (by decide) st.history ⟨e.now, q, text⟩⟩
      simp only [process_with_gemini, hq, Bool.false_eq_true, if_false, h2, hg]
    · intro hg
      simp only [process_with_gemini, hq, Bool.false_eq_true, if_false, h2, hg]

/-- Witness for C4: "what time is it" is answered from the clock with no
model call and no persisted turn; "hello there" matches nothing and the
successful model reply is persisted as the last turn. -/
theorem persist_iff_model_success_witness :
    process_with_gemini sampleEnv (initState []) "what time is it" =
      ("The current time is 03:04 PM.", initState [], []) ∧
    process_with_gemini sampleEnv (initState []) "hello there" =
      ("Model reply.",
       { initState [] with history := add_interaction MAX_HISTORY_LENGTH [] (Interaction.mk "2026-10-12T15:04:05" "hello there" "Model reply.") },
       [.processingTone, .modelCall (geminiPrompt [] "hello there")]) :=
  ⟨((persist_iff_model_success sampleEnv (initState []) "what time is it"
      (by decide)).1 "The current time is 03:04 PM." (initState [])
      (by decide)).1,
   (((persist_iff_model_success sampleEnv (initState []) "hello there"
      (by decide)).2 (by decide)).1 "Model reply." rfl).1⟩

/-- C7: the set-timer handler parses an integer duration in minutes via the
loose `re.search` patterns; on success exactly one timer for that many
minutes is recorded and a confirmation returned, and on failure a user-facing
failure message is returned (never a "no match"), so a set-timer utterance is
never forwarded to the language model. -/
theorem set_timer_parse_or_fail (e : Env) (st : AssistantState) (q : String) :
    (∀ n : Nat, timer_parse q = some n →
      set_timer st q =
        (some ("Timer set for " ++ toString n ++ " minute" ++
          (if n != 1 then "s" else "") ++ "."),
         { st with timers := st.timers ++ [n] })) ∧
    (timer_parse q = none →
      set_timer st q =
        (some "Please specify the duration in minutes to set the timer.", st)) ∧
    (route q = some .setTimer →
      check_for_commands e st q = set_timer st (pyLower q) ∧
      ∀ (r : String) (st' : AssistantState),
        set_timer st (pyLower q) = (some r, st') →
        process_with_gemini e st q = (r, st', [])) := by
  refine ⟨?_, ?_, ?_⟩
  · intro n hp
    simp [set_timer, hp]
  · intro hp
    simp [set_timer, hp]
  · intro hr
    have hc : check_for_commands e st q = set_timer st (pyLower q) := by
      rw [check_eq_dispatch, hr]
      rfl
    refine ⟨hc, ?_⟩
    intro r st' hset
    have hqe : q.isEmpty = false := route_isSome_nonempty q _ hr
    have hc2 : check_for_commands e st q = (some r, st') := by rw [hc, hset]
    simp only [process_with_gemini, hqe, Bool.false_eq_true, if_false, hc2]

/-- Witness for C7: "set timer for 5 minutes" schedules one 5-minute timer
with a confirmation; "set timer for eternity" yields the ask-for-a-duration
message and the timer list is unchanged. -/
theorem set_timer_parse_or_fail_witness :
    set_timer (initState []) "set timer for 5 minutes" =
      (some ("Timer set for " ++ toString 5 ++ " minute" ++
        (if 5 != 1 then "s" else "") ++ "."),
       { initState [] with timers := (initState []).timers ++ [5] }) ∧
    set_timer (initState []) "set timer for eternity" =
      (some "Please specify the duration in minutes to set the timer.",
       initState []) ∧
    process_with_gemini sampleEnv (initState []) "set timer for 5 minutes" =
      (("Timer set for 5 minutes." : String),
       { initState [] with timers := [5] }, []) :=
  ⟨(set_timer_parse_or_fail sampleEnv (initState []) "set timer for 5 minutes").1
     5 (by decide),
   (set_timer_parse_or_fail sampleEnv (initState []) "set timer for eternity").2.1
     (by decide),
   ((set_timer_parse_or_fail sampleEnv (initState [])
       "set timer for 5 minutes").2.2 (by decide)).2
     "Timer set for 5 minutes." { initState [] with timers := [5] } (by decide)⟩

/-- C9: with Gmail credentials configured and a recipient name captured,
every remaining path of `send_email` — unknown contact, failed message
capture, SMTP failure, SMTP success — returns `None`, so the router reports
"no match" for the send-email utterance, which is then forwarded to the
language model and, on model success, persisted as a conversation turn. -/
theorem email_fallthrough (e : Env) (st : AssistantState) (q : String)
    (hu : isTruthy e.gmail_user = true)
    (hp : isTruthy e.gmail_app_password = true)
    (name : String) (hn : e.email_name = some name)
    (hne : name.isEmpty = false) :
    send_email e = none ∧
    (route q = some .sendEmail →
      check_for_commands e st q = (none, st) ∧
      (∀ text, e.gemini = .ok text →
        process_with_gemini e st q =
          (text,
           { st with history :=
               add_interaction MAX_HISTORY_LENGTH st.history ⟨e.now, q, text⟩ },
           [.processingTone, .modelCall (geminiPrompt st.history q)]))) := by
  have hsend : send_email e = none := by
    cases hfind : (mail_id_list.find? (fun p => p.1 == pyLower name)).map Prod.snd with
    | none => simp [send_email, hu, hp, hn, hne, hfind]
    | some addr =>
      cases hmsg : e.email_message with
      | none => simp [send_email, hu, hp, hn, hne, hfind, hmsg]
      | some msg => simp [send_email, hu, hp, hn, hne, hfind, hmsg]
  refine ⟨hsend, ?_⟩
  intro hr
  have hc : check_for_commands e st q = (none, st) := by
    rw [check_eq_dispatch, hr]
    simp [dispatch, hsend]
  have hqe : q.isEmpty = false := route_isSome_nonempty q _ hr
  refine ⟨hc, ?_⟩
  intro text hg
  simp only [process_with_gemini, hqe, Bool.false_eq_true, if_false, hc, hg]

/-- Witness for C9: with the sample environment's configured credentials and
captured recipient "python", the send-email utterance falls through to the
model and the successful reply is persisted. -/
theorem email_fallthrough_witness :
    send_email sampleEnv = none ∧
    process_with_gemini sampleEnv (initState []) "send email to python" =
      ("Model reply.",
       { initState [] with history := add_interaction MAX_HISTORY_LENGTH [] (Interaction.mk "2026-10-12T15:04:05" "send email to python" "Model reply.") },
       [.processingTone, .modelCall (geminiPrompt [] "send email to python")]) :=
  ⟨(email_fallthrough sampleEnv (initState []) "send email to python"
      (by decide) (by decide) "python" rfl (by decide)).1,
   ((email_fallthrough sampleEnv (initState []) "send email to python"
      (by decide) (by decide) "python" rfl (by decide)).2 (by decide)).2
     "Model reply." rfl⟩
